import Mathlib

/-!
Verification development for the FluxCover (Diffuse Gradient Studio) repository.

We give a shallow embedding of the two routines the claims concern:

* `getCanvasDataURL` — the high-resolution export compositor of the
  `DiffuseShader` component.  Browser objects are modelled explicitly:
  the nullable refs (`gl`, `program`, `canvas`) and the three
  `getContext('2d')` acquisitions become boolean fields of a `ShaderEnv`;
  the WebGL readback becomes an oracle function `readPixels`; JavaScript
  numbers (`scaleFactor`, `blurRadius`, the time accumulator) are modelled
  as rationals; side effects (renderFrame calls, canvas allocations,
  `drawImage` calls, the blur filter) are recorded in an explicit trace.

* `generateCreativeContent` — the chat-completions variant of the remote
  content generator.  The network and the two `JSON.parse` attempts are
  modelled as an `ApiEnv` oracle; exceptions become `Except`, with the
  outer `try/catch` reflected by `generateCreativeContent` collapsing any
  error to the hard-coded fallback content.
-/

namespace FluxCover

/-! ### Byte-buffer primitives

`listSet dst src off` models `TypedArray.set(src, off)`: overwrite the
segment of `dst` starting at `off` with `src`.  `fitLen n l` models
writing the bytes `l` into a fresh zero-initialised buffer of length `n`
(as `gl.readPixels` does with its output `Uint8Array`). -/

def listSet (dst src : List Nat) (off : Nat) : List Nat :=
  dst.take off ++ src ++ dst.drop (off + src.length)

def fitLen (n : Nat) (l : List Nat) : List Nat :=
  l.take n ++ List.replicate (n - l.length) 0

/-- The `i`-th RGBA scanline of a buffer of width `w`:
`pixels.subarray(i*w*4, i*w*4 + w*4)`. -/
def pixelRow (w : Nat) (px : List Nat) (i : Nat) : List Nat :=
  (px.drop (i * (w * 4))).take (w * 4)

/-- The Y-flip loop of `getCanvasDataURL` (step 4 in the source):

```
const flippedPixels = new Uint8Array(targetWidth * targetHeight * 4);
for (let i = 0; i < targetHeight; i++) {
  const srcRow = i * targetWidth * 4;
  const dstRow = (targetHeight - i - 1) * targetWidth * 4;
  flippedPixels.set(pixels.subarray(srcRow, srcRow + targetWidth * 4), dstRow);
}
```
-/
def flipPixels (w h : Nat) (px : List Nat) : List Nat :=
  (List.range h).foldl
    (fun flipped i => listSet flipped (pixelRow w px i) ((h - i - 1) * (w * 4)))
    (List.replicate (w * h * 4) 0)

theorem fitLen_of_length_eq {n : Nat} {l : List Nat} (h : l.length = n) :
    fitLen n l = l := by
  subst h
  simp [fitLen]

theorem pixelRow_length {w : Nat} {px : List Nat} {i : Nat}
    (h : (i + 1) * (w * 4) ≤ px.length) : (pixelRow w px i).length = w * 4 := by
  have h' : i * (w * 4) + w * 4 ≤ px.length := by
    rw [Nat.succ_mul] at h; exact h
  simp only [pixelRow, List.length_take, List.length_drop]
  omega

/-- Length of a `flatMap` whose chunks all have length `c`. -/
theorem flatMap_length_const (f : Nat → List Nat) (c : Nat) :
    ∀ l : List Nat, (∀ i ∈ l, (f i).length = c) →
      (l.flatMap f).length = l.length * c := by
  intro l
  induction l with
  | nil => intro _; simp
  | cons a t ih =>
      intro hmem
      have ha : (f a).length = c := hmem a (List.mem_cons_self a t)
      have ht := ih fun i hi => hmem i (List.mem_cons_of_mem a hi)
      simp [List.flatMap_cons, ha, ht, Nat.succ_mul, Nat.add_comm]

/-- Extracting the `j`-th chunk of a `flatMap` whose chunks all have
length `c`. -/
theorem flatMap_chunk (f : Nat → List Nat) (c : Nat) :
    ∀ (l : List Nat) (j : Nat) (hj : j < l.length),
      (∀ i ∈ l, (f i).length = c) →
      ((l.flatMap f).drop (j * c)).take c = f (l.get ⟨j, hj⟩) := by
  intro l
  induction l with
  | nil => intro j hj; exact absurd hj (by simp)
  | cons a t ih =>
      intro j hj hmem
      have ha : (f a).length = c := hmem a (List.mem_cons_self a t)
      cases j with
      | zero =>
          simp only [List.flatMap_cons, Nat.zero_mul, List.drop_zero, List.get]
          rw [List.take_append_of_le_length (by omega), ← ha, List.take_length]
      | succ j =>
          have hj' : j < t.length := by simpa using hj
          have hdrop : ((a :: t).flatMap f).drop ((j + 1) * c)
              = (t.flatMap f).drop (j * c) := by
            rw [List.flatMap_cons, Nat.succ_mul, Nat.add_comm,
              ← List.drop_drop, List.drop_left' ha]
          rw [hdrop]
          exact ih j hj' fun i hi => hmem i (List.mem_cons_of_mem a hi)

/-- Concatenating the scanlines of a buffer in order reproduces the
buffer. -/
theorem flatMap_pixelRow_recompose (w : Nat) :
    ∀ (h : Nat) (q : List Nat), q.length = h * (w * 4) →
      (List.range h).flatMap (pixelRow w q) = q := by
  intro h
  induction h with
  | zero =>
      intro q hq
      simp only [Nat.zero_mul] at hq
      simp [List.eq_nil_of_length_eq_zero hq]
  | succ n ih =>
      intro q hq
      have hrow : ∀ i : Nat, pixelRow w q (i + 1) = pixelRow w (q.drop (w * 4)) i := by
        intro i
        simp only [pixelRow, List.drop_drop]
        congr 2
        rw [Nat.succ_mul, Nat.add_comm]
      have hlen : (q.drop (w * 4)).length = n * (w * 4) := by
        rw [List.length_drop, hq, Nat.succ_mul]; omega
      calc (List.range (n + 1)).flatMap (pixelRow w q)
          = (0 :: (List.range n).map Nat.succ).flatMap (pixelRow w q) := by
            rw [← List.range_succ_eq_map]
        _ = pixelRow w q 0 ++ (List.range n).flatMap (fun i => pixelRow w q (i + 1)) := by
            rw [List.flatMap_cons, List.flatMap_map]
        _ = q.take (w * 4) ++ (List.range n).flatMap (pixelRow w (q.drop (w * 4))) := by
            rw [List.flatMap_congr fun i _ => hrow i]
            simp [pixelRow]
        _ = q.take (w * 4) ++ q.drop (w * 4) := by rw [ih _ hlen]
        _ = q := List.take_append_drop _ q

/-- A scanline of a buffer of `h` rows has length `w * 4`. -/
theorem pixelRow_length_of_lt {w h : Nat} {px : List Nat} (hpx : px.length = w * h * 4)
    {i : Nat} (hi : i < h) : (pixelRow w px i).length = w * 4 := by
  apply pixelRow_length
  rw [hpx]
  calc (i + 1) * (w * 4) ≤ h * (w * 4) := Nat.mul_le_mul_right (w * 4) (by omega)
    _ = w * h * 4 := by ring

/-- Invariant of the flip loop: after iterations `0 .. k-1` the first
`h - k` destination rows are still zero and the remaining rows hold the
source rows `k-1, k-2, …, 0` (iteration `i` writes source row `i` at
destination row `h - i - 1`). -/
theorem flipPixels_fold (w h : Nat) (px : List Nat) (hpx : px.length = w * h * 4) :
    ∀ k, k ≤ h →
      (List.range k).foldl
        (fun flipped i => listSet flipped (pixelRow w px i) ((h - i - 1) * (w * 4)))
        (List.replicate (w * h * 4) 0)
      = List.replicate ((h - k) * (w * 4)) 0
          ++ (List.range k).reverse.flatMap (pixelRow w px) := by
  intro k
  induction k with
  | zero =>
      intro _
      simp only [List.range_zero, List.foldl_nil, List.reverse_nil,
        List.flatMap_nil, List.append_nil, Nat.sub_zero]
      congr 1
      ring
  | succ k ih =>
      intro hk
      have hk' : k ≤ h := by omega
      have hkh : k < h := hk
      have hrowlen : (pixelRow w px k).length = w * 4 := pixelRow_length_of_lt hpx hkh
      have hstep : List.range (k + 1) = List.range k ++ [k] := by
        simpa using List.range_succ k
      rw [hstep, List.foldl_append, ih hk']
      simp only [List.foldl_cons, List.foldl_nil]
      set A := List.replicate ((h - k) * (w * 4)) 0 with hA
      set T := (List.range k).reverse.flatMap (pixelRow w px) with hT
      have hAlen : A.length = (h - k) * (w * 4) := by simp [hA]
      have hone : 1 * (w * 4) ≤ (h - k) * (w * 4) :=
        Nat.mul_le_mul_right (w * 4) (by omega)
      have hoff : (h - k - 1) * (w * 4) + (pixelRow w px k).length
          = (h - k) * (w * 4) := by
        rw [hrowlen, Nat.sub_one_mul]
        omega
      have htake : (A ++ T).take ((h - k - 1) * (w * 4))
          = List.replicate ((h - k - 1) * (w * 4)) 0 := by
        rw [List.take_append_of_le_length]
        · rw [hA, List.take_replicate]
          congr 1
          have hle : (h - k - 1) * (w * 4) ≤ (h - k) * (w * 4) :=
            Nat.mul_le_mul_right (w * 4) (by omega)
          omega
        · rw [hAlen]
          exact Nat.mul_le_mul_right (w * 4) (by omega)
      have hdrop : (A ++ T).drop ((h - k - 1) * (w * 4) + (pixelRow w px k).length)
          = T := by
        rw [hoff, List.drop_left' hAlen]
      rw [listSet, htake, hdrop]
      have hsub : h - (k + 1) = h - k - 1 := by omega
      rw [List.reverse_append, hsub]
      simp only [List.reverse_cons, List.reverse_nil, List.nil_append,
        List.singleton_append, List.flatMap_cons, ← hT]
      rw [List.append_assoc]

/-- The flip loop written as row concatenation: destination row `j` is
source row `h - 1 - j`. -/
theorem flipPixels_eq (w h : Nat) (px : List Nat) (hpx : px.length = w * h * 4) :
    flipPixels w h px = (List.range h).reverse.flatMap (pixelRow w px) := by
  have := flipPixels_fold w h px hpx h le_rfl
  simpa [flipPixels, Nat.sub_self] using this

theorem flipPixels_length (w h : Nat) (px : List Nat) (hpx : px.length = w * h * 4) :
    (flipPixels w h px).length = w * h * 4 := by
  rw [flipPixels_eq w h px hpx, flatMap_length_const _ (w * 4)]
  · simp
    ring
  · intro i hi
    exact pixelRow_length_of_lt hpx (List.mem_range.mp (List.mem_reverse.mp hi))

/-- Row `i` of the flipped buffer is row `h - 1 - i` of the source. -/
theorem flipPixels_row (w h : Nat) (px : List Nat) (hpx : px.length = w * h * 4)
    (i : Nat) (hi : i < h) :
    pixelRow w (flipPixels w h px) i = pixelRow w px (h - 1 - i) := by
  have hlen : ∀ j ∈ (List.range h).reverse, (pixelRow w px j).length = w * 4 :=
    fun j hj => pixelRow_length_of_lt hpx (List.mem_range.mp (List.mem_reverse.mp hj))
  have hi' : i < (List.range h).reverse.length := by simpa using hi
  have hchunk := flatMap_chunk (pixelRow w px) (w * 4) (List.range h).reverse i hi' hlen
  have hget : (List.range h).reverse.get ⟨i, hi'⟩ = h - 1 - i := by
    rw [List.get_eq_getElem, List.getElem_reverse]
    simp
  have hunfold : pixelRow w ((List.range h).reverse.flatMap (pixelRow w px)) i
      = (((List.range h).reverse.flatMap (pixelRow w px)).drop (i * (w * 4))).take (w * 4) :=
    rfl
  rw [flipPixels_eq w h px hpx, hunfold, hchunk, hget]

/-- Two buffers of `h` rows with equal rows are equal. -/
theorem eq_of_pixelRows (w h : Nat) (a b : List Nat)
    (ha : a.length = w * h * 4) (hb : b.length = w * h * 4)
    (hrow : ∀ i, i < h → pixelRow w a i = pixelRow w b i) : a = b := by
  have ha' : a.length = h * (w * 4) := by rw [ha]; ring
  have hb' : b.length = h * (w * 4) := by rw [hb]; ring
  rw [← flatMap_pixelRow_recompose w h a ha', ← flatMap_pixelRow_recompose w h b hb']
  exact List.flatMap_congr fun i hi => hrow i (List.mem_range.mp hi)

/-! ### The export compositor `getCanvasDataURL`

The environment of one invocation: the three nullable refs become `Ok`
booleans, the canvas dimensions and client (display) dimensions are
naturals, the animation time and the numeric arguments are rationals, the
WebGL readback is an oracle, and the three `getContext('2d')` calls
(temporary capture canvas, padded clamp canvas, final blur canvas) are
booleans saying whether the browser yields a context. -/

structure ShaderEnv where
  glOk : Bool
  programOk : Bool
  canvasOk : Bool
  canvasWidth : Nat
  canvasHeight : Nat
  clientWidth : Nat
  clientHeight : Nat
  time : ℚ
  readPixels : Nat → Nat → List Nat
  tempCtxOk : Bool
  clampCtxOk : Bool
  finalCtxOk : Bool

/-- One `drawImage(src, sx, sy, sw, sh, dx, dy, dw, dh)` call.  The
5-argument form `drawImage(img, dx, dy, dw, dh)` is recorded with the
source rectangle covering the whole source image. -/
structure DrawOp where
  sx : Int
  sy : Int
  sw : Int
  sh : Int
  dx : Int
  dy : Int
  dw : Int
  dh : Int
deriving Repr, DecidableEq

/-- Trace of the observable side effects of one invocation. -/
structure ExportTrace where
  /-- `renderFrame(gl, program, w, h, t)` calls, in order. -/
  renders : List (Nat × Nat × ℚ)
  /-- padding and dimensions of the clamp canvas, when it is allocated -/
  clampAlloc : Option (Nat × Nat × Nat)
  /-- value assigned to `cCtx.imageSmoothingEnabled`, when assigned -/
  clampSmoothing : Option Bool
  /-- `drawImage` calls issued on the clamp canvas, in order -/
  clampOps : List DrawOp
  /-- radius of the `blur(..px)` filter set on the final canvas context -/
  blurApplied : Option ℚ
  /-- destination offset of `drawImage(clampedCanvas, -pad, -pad)` -/
  finalDraw : Option (Int × Int)
deriving Repr, DecidableEq

/-- The encoded still image handed back by `toDataURL('image/png')`: the
unblurred path carries the exact pixel bytes of the temp canvas; the
blurred path carries the final canvas dimensions and the filter radius
(the blurred bytes themselves are browser-defined). -/
inductive ExportImage where
  | raw (width height : Nat) (pixels : List Nat)
  | blurred (width height : Nat) (radius : ℚ)
deriving Repr, DecidableEq

def ExportImage.width : ExportImage → Nat
  | .raw w _ _ => w
  | .blurred w _ _ => w

def ExportImage.height : ExportImage → Nat
  | .raw _ h _ => h
  | .blurred _ h _ => h

/-- Result of one invocation: the returned value, the live canvas's
dimensions at return, and the side-effect trace. -/
structure ExportResult where
  result : Option ExportImage
  canvasWidth : Nat
  canvasHeight : Nat
  trace : ExportTrace
deriving Repr, DecidableEq

def emptyTrace : ExportTrace :=
  { renders := [], clampAlloc := none, clampSmoothing := none,
    clampOps := [], blurApplied := none, finalDraw := none }

/-- Models `Math.floor(client * scaleFactor)` as a natural.  The claims under
study assume `scaleFactor ≥ 1`, for which the floor is non-negative and
`toNat` is exact. -/
def targetDim (client : Nat) (scaleFactor : ℚ) : Nat :=
  (⌊(client : ℚ) * scaleFactor⌋).toNat

/-- Shallow embedding of `getCanvasDataURL(scaleFactor, blurRadius)`
(`DiffuseShader`, the `useImperativeHandle` body).  In the source the
defaults are `scaleFactor = 2`, `blurRadius = 0`. -/
def getCanvasDataURL (env : ShaderEnv) (scaleFactor blurRadius : ℚ) : ExportResult :=
  if !(env.glOk && env.programOk && env.canvasOk) then
    -- `if (!gl || !program || !canvas) return null;`
    { result := none, canvasWidth := env.canvasWidth, canvasHeight := env.canvasHeight,
      trace := emptyTrace }
  else
    let originalWidth := env.canvasWidth
    let originalHeight := env.canvasHeight
    let targetWidth := targetDim env.clientWidth scaleFactor
    let targetHeight := targetDim env.clientHeight scaleFactor
    -- canvas.width/height := target; renderFrame at target; readPixels
    let pixels := fitLen (targetWidth * targetHeight * 4)
      (env.readPixels targetWidth targetHeight)
    let flippedPixels := flipPixels targetWidth targetHeight pixels
    if !env.tempCtxOk then
      -- `if (!ctx) { canvas.width = originalWidth; ...; renderFrame(...); return null; }`
      { result := none, canvasWidth := originalWidth, canvasHeight := originalHeight,
        trace := { emptyTrace with
          renders := [(targetWidth, targetHeight, env.time),
                      (originalWidth, originalHeight, env.time)] } }
    else
      -- putImageData; restore original size; renderFrame at original size
      let baseRenders := [(targetWidth, targetHeight, env.time),
                          (originalWidth, originalHeight, env.time)]
      if blurRadius > 0 then
        let scaledBlur := blurRadius * scaleFactor
        let pad := (⌈scaledBlur * 3⌉).toNat
        let clampW := targetWidth + pad * 2
        let clampH := targetHeight + pad * 2
        if env.clampCtxOk then
          let tw : Int := targetWidth
          let th : Int := targetHeight
          let p : Int := pad
          let ops : List DrawOp :=
            [ -- center: drawImage(tempCanvas, pad, pad, targetWidth, targetHeight)
              ⟨0, 0, tw, th, p, p, tw, th⟩,
              -- left edge
              ⟨0, 0, 1, th, 0, p, p, th⟩,
              -- right edge
              ⟨tw - 1, 0, 1, th, tw + p, p, p, th⟩,
              -- top edge
              ⟨0, 0, tw, 1, p, 0, tw, p⟩,
              -- bottom edge
              ⟨0, th - 1, tw, 1, p, th + p, tw, p⟩,
              -- top-left corner
              ⟨0, 0, 1, 1, 0, 0, p, p⟩,
              -- top-right corner
              ⟨tw - 1, 0, 1, 1, tw + p, 0, p, p⟩,
              -- bottom-left corner
              ⟨0, th - 1, 1, 1, 0, th + p, p, p⟩,
              -- bottom-right corner
              ⟨tw - 1, th - 1, 1, 1, tw + p, th + p, p, p⟩ ]
          if env.finalCtxOk then
            { result := some (ExportImage.blurred targetWidth targetHeight scaledBlur),
              canvasWidth := originalWidth, canvasHeight := originalHeight,
              trace := { renders := baseRenders,
                         clampAlloc := some (pad, clampW, clampH),
                         clampSmoothing := some false, clampOps := ops,
                         blurApplied := some scaledBlur,
                         finalDraw := some (-p, -p) } }
          else
            -- `fCtx` null: falls through to `return tempCanvas.toDataURL('image/png')`
            { result := some (ExportImage.raw targetWidth targetHeight flippedPixels),
              canvasWidth := originalWidth, canvasHeight := originalHeight,
              trace := { renders := baseRenders,
                         clampAlloc := some (pad, clampW, clampH),
                         clampSmoothing := some false, clampOps := ops,
                         blurApplied := none, finalDraw := none } }
        else
          -- `cCtx` null: falls through to `return tempCanvas.toDataURL('image/png')`
          { result := some (ExportImage.raw targetWidth targetHeight flippedPixels),
            canvasWidth := originalWidth, canvasHeight := originalHeight,
            trace := { renders := baseRenders,
                       clampAlloc := some (pad, clampW, clampH),
                       clampSmoothing := none, clampOps := [],
                       blurApplied := none, finalDraw := none } }
      else
        { result := some (ExportImage.raw targetWidth targetHeight flippedPixels),
          canvasWidth := originalWidth, canvasHeight := originalHeight,
          trace := { emptyTrace with renders := baseRenders } }

/-! ### The remote content generator `generateCreativeContent`
(chat-completions variant)

The network and the JavaScript JSON machinery are modelled as an oracle
`ApiEnv`; thrown exceptions become `Except.error` values.  A JavaScript
value parsed from JSON is modelled by `ParsedShape`, whose `Option`
fields record whether the property is present with a value of the
declared type (`none` also covers `JSON.parse` yielding `null`, a
missing property, or a non-array `colors` — all of which fail the same
truthiness / `Array.isArray` validation in the source). -/

inductive Lang where
  | en
  | zh
deriving Repr, DecidableEq

structure GeneratedContent where
  title : String
  subtitle : String
  colors : List String
deriving Repr, DecidableEq

structure ParsedShape where
  title : Option String
  subtitle : Option String
  colors : Option (List String)
deriving Repr, DecidableEq

/-- Oracle for one call: is the API key configured, did the HTTP request
succeed, the assistant's message content (`''` models both an absent and
an empty content), the outcome of `JSON.parse(raw)` (`none` = threw),
the outcome of `raw.match(...)`, and the outcome of `JSON.parse(m[0])`
(`none` = threw, an exception which escapes to the outer catch). -/
structure ApiEnv where
  apiKeyPresent : Bool
  httpOk : Bool
  rawContent : String
  parseDirect : Option ParsedShape
  regexMatch : Option String
  parseRegex : Option ParsedShape

/-- The `try { parsed = JSON.parse(raw) } catch { regex fallback }`
block: direct parse first; on throw, regex-extract and parse that (an
exception from the second parse escapes to the outer catch). -/
def parseAssistantJson (env : ApiEnv) : Except String ParsedShape :=
  match env.parseDirect with
  | some p => .ok p
  | none =>
      match env.regexMatch with
      | some _ =>
          match env.parseRegex with
          | some p => .ok p
          | none => .error "JSON.parse exception on regex-extracted text"
      | none => .error "Failed to parse JSON from assistant response"

/-- The body of the `try` block of `generateCreativeContent`: every
`throw new Error(...)` becomes an `Except.error`. -/
def generateCreativeContentE (env : ApiEnv) (mood : String) (lang : Lang) :
    Except String GeneratedContent :=
  if !env.apiKeyPresent then
    .error "Missing GRS AI API key. Set process.env.GRSAI_API_KEY or process.env.OPENAI_API_KEY"
  else if !env.httpOk then
    .error "GRSAI API error"
  else if env.rawContent = "" then
    .error "No content returned from GRS AI"
  else
    match parseAssistantJson env with
    | .error e => .error e
    | .ok parsed =>
        -- `if (!parsed || !parsed.title || !parsed.subtitle ||
        --      !Array.isArray(parsed.colors) || parsed.colors.length !== 5) throw ...`
        match parsed.title, parsed.subtitle, parsed.colors with
        | some t, some st, some cs =>
            if t = "" ∨ st = "" ∨ cs.length ≠ 5 then
              .error "Parsed response does not match expected GeneratedContent shape"
            else
              .ok { title := t, subtitle := st, colors := cs }
        | _, _, _ =>
            .error "Parsed response does not match expected GeneratedContent shape"

/-- The hard-coded fallback returned by the `catch` block. -/
def fallbackContent (lang : Lang) : GeneratedContent :=
  { title := match lang with
      | .zh => "生成错误"
      | .en => "Error Generating"
    subtitle := match lang with
      | .zh => "请检查API Key或重试。"
      | .en => "Please check your API key or try again."
    colors := ["#ff0000", "#00ff00", "#0000ff", "#ffff00", "#00ffff"] }

/-- The full `generateCreativeContent` with its `try/catch` wrapper —
any error inside the body resolves to the fallback content, so the
promise never rejects. -/
def generateCreativeContent (env : ApiEnv) (mood : String) (lang : Lang) :
    GeneratedContent :=
  match generateCreativeContentE env mood lang with
  | .ok c => c
  | .error _ => fallbackContent lang

/-! ### Concrete environments used by witnesses and counterexamples -/

/-- A fully initialised 1×1-client surface whose readback is all-zero. -/
def envA : ShaderEnv :=
  { glOk := true, programOk := true, canvasOk := true,
    canvasWidth := 3, canvasHeight := 4, clientWidth := 1, clientHeight := 1,
    time := 0, readPixels := fun w h => List.replicate (w * h * 4) 0,
    tempCtxOk := true, clampCtxOk := true, finalCtxOk := true }

/-- Like `envA` but the padded clamp canvas's 2D context is unavailable. -/
def envB : ShaderEnv :=
  { glOk := true, programOk := true, canvasOk := true,
    canvasWidth := 3, canvasHeight := 4, clientWidth := 1, clientHeight := 1,
    time := 0, readPixels := fun w h => List.replicate (w * h * 4) 0,
    tempCtxOk := true, clampCtxOk := false, finalCtxOk := true }

/-- A surface whose WebGL context was never initialised. -/
def envC : ShaderEnv :=
  { glOk := false, programOk := true, canvasOk := true,
    canvasWidth := 3, canvasHeight := 4, clientWidth := 1, clientHeight := 1,
    time := 0, readPixels := fun w h => List.replicate (w * h * 4) 0,
    tempCtxOk := true, clampCtxOk := true, finalCtxOk := true }

/-! ### Helper lemmas for the claim theorems -/

theorem fallbackContent_wellFormed (l : Lang) :
    (fallbackContent l).colors.length = 5 ∧
    (fallbackContent l).title ≠ "" ∧ (fallbackContent l).subtitle ≠ "" := by
  cases l <;> exact ⟨rfl, by decide, by decide⟩

theorem generateCreativeContentE_ok_shape (env : ApiEnv) (mood : String) (lang : Lang)
    (c : GeneratedContent) (h : generateCreativeContentE env mood lang = .ok c) :
    c.colors.length = 5 ∧ c.title ≠ "" ∧ c.subtitle ≠ "" := by
  unfold generateCreativeContentE at h
  split at h
  · exact absurd h (by simp)
  split at h
  · exact absurd h (by simp)
  split at h
  · exact absurd h (by simp)
  split at h
  · exact absurd h (by simp)
  split at h
  · split at h
    · exact absurd h (by simp)
    · rename_i hvalid
      push_neg at hvalid
      simp only [Except.ok.injEq] at h
      subst h
      exact ⟨hvalid.2.2, hvalid.1, hvalid.2.1⟩
  · exact absurd h (by simp)

theorem targetDim_cast (c : Nat) {s : ℚ} (hs : 1 ≤ s) :
    ((targetDim c s : ℤ)) = ⌊(c : ℚ) * s⌋ := by
  have h0 : (0 : ℚ) ≤ (c : ℚ) * s :=
    mul_nonneg (Nat.cast_nonneg c) (le_trans zero_le_one hs)
  rw [targetDim, Int.toNat_of_nonneg (Int.floor_nonneg.mpr h0)]

/-! ### The claims -/

/-- C1: whenever `getCanvasDataURL` succeeds (for `scaleFactor ≥ 1`,
`blurRadiusPixels ≥ 0`), the encoded output image's dimensions are
`floor(displayWidth * scaleFactor) × floor(displayHeight * scaleFactor)`,
where display dimensions are the canvas's client dimensions at
invocation — independent of the blur radius. -/
theorem c1_export_dimensions (env : ShaderEnv) (s b : ℚ) (hs : 1 ≤ s) (hb : 0 ≤ b)
    (u : ExportImage) (h : (getCanvasDataURL env s b).result = some u) :
    (u.width : ℤ) = ⌊(env.clientWidth : ℚ) * s⌋ ∧
    (u.height : ℤ) = ⌊(env.clientHeight : ℚ) * s⌋ := by
  unfold getCanvasDataURL at h
  split at h
  · exact absurd h (by simp)
  · split at h
    · exact absurd h (by simp)
    · split at h
      · split at h
        · split at h
          · simp only [Option.some.injEq] at h
            subst h
            exact ⟨targetDim_cast _ hs, targetDim_cast _ hs⟩
          · simp only [Option.some.injEq] at h
            subst h
            exact ⟨targetDim_cast _ hs, targetDim_cast _ hs⟩
        · simp only [Option.some.injEq] at h
          subst h
          exact ⟨targetDim_cast _ hs, targetDim_cast _ hs⟩
      · simp only [Option.some.injEq] at h
        subst h
        exact ⟨targetDim_cast _ hs, targetDim_cast _ hs⟩

theorem c1_export_dimensions_witness :
    ((ExportImage.raw 2 2 (flipPixels 2 2 (List.replicate 16 0))).width : ℤ)
      = ⌊(envA.clientWidth : ℚ) * 2⌋ :=
  (c1_export_dimensions envA 2 0 (by norm_num) le_rfl
    (ExportImage.raw 2 2 (flipPixels 2 2 (List.replicate 16 0)))
    (by simp [getCanvasDataURL, envA, targetDim, fitLen, emptyTrace])).1

/-- C2: on every exit path reached after the live canvas has been
mutated (all three refs initialised, success or early context failure),
the canvas dimensions at return equal their pre-invocation values and
the last `renderFrame` issued before returning is at the restored size. -/
theorem c2_restore_invariant (env : ShaderEnv) (s b : ℚ)
    (hg : env.glOk = true) (hp : env.programOk = true) (hc : env.canvasOk = true) :
    (getCanvasDataURL env s b).canvasWidth = env.canvasWidth ∧
    (getCanvasDataURL env s b).canvasHeight = env.canvasHeight ∧
    (getCanvasDataURL env s b).trace.renders.getLast?
      = some (env.canvasWidth, env.canvasHeight, env.time) := by
  unfold getCanvasDataURL
  rw [if_neg (by simp [hg, hp, hc])]
  split
  · exact ⟨rfl, rfl, rfl⟩
  · split
    · split
      · split
        · exact ⟨rfl, rfl, rfl⟩
        · exact ⟨rfl, rfl, rfl⟩
      · exact ⟨rfl, rfl, rfl⟩
    · exact ⟨rfl, rfl, rfl⟩

theorem c2_restore_invariant_witness :
    (getCanvasDataURL envA 2 1).canvasWidth = envA.canvasWidth ∧
    (getCanvasDataURL envA 2 1).canvasHeight = envA.canvasHeight ∧
    (getCanvasDataURL envA 2 1).trace.renders.getLast?
      = some (envA.canvasWidth, envA.canvasHeight, envA.time) :=
  c2_restore_invariant envA 2 1 rfl rfl rfl

/-- C3 as stated is false: a 2D-context failure at the padded clamp
canvas stage (blur requested, `cCtx === null`) does not make the
procedure return null — it falls through to
`return tempCanvas.toDataURL('image/png')`, a non-null result. -/
theorem c3_counterexample :
    envB.clampCtxOk = false ∧ (1 : ℚ) > 0 ∧
    (getCanvasDataURL envB 2 1).result ≠ none := by
  refine ⟨rfl, by norm_num, ?_⟩
  simp [getCanvasDataURL, envB, targetDim, emptyTrace]

/-- C3 amended: only a 2D-context failure at the temporary capture
canvas makes the procedure return null (after restoring the surface);
a context failure at the padded clamp canvas or at the final blur canvas
instead returns the unblurred capture as a non-null PNG, with the
surface state likewise already restored. -/
theorem c3_context_failure_amended (env : ShaderEnv) (s b : ℚ)
    (hg : env.glOk = true) (hp : env.programOk = true) (hc : env.canvasOk = true) :
    (env.tempCtxOk = false →
      (getCanvasDataURL env s b).result = none ∧
      (getCanvasDataURL env s b).canvasWidth = env.canvasWidth ∧
      (getCanvasDataURL env s b).canvasHeight = env.canvasHeight) ∧
    (env.tempCtxOk = true → (env.clampCtxOk = false ∨ env.finalCtxOk = false) →
      (∃ px, (getCanvasDataURL env s b).result
          = some (ExportImage.raw (targetDim env.clientWidth s)
              (targetDim env.clientHeight s) px)) ∧
      (getCanvasDataURL env s b).canvasWidth = env.canvasWidth ∧
      (getCanvasDataURL env s b).canvasHeight = env.canvasHeight) := by
  unfold getCanvasDataURL
  rw [if_neg (by simp [hg, hp, hc])]
  constructor
  · intro htf
    rw [if_pos (by simp [htf])]
    exact ⟨rfl, rfl, rfl⟩
  · intro htt hfail
    rw [if_neg (by simp [htt])]
    split
    · rcases hfail with hcf | hff
      · rw [if_neg (by simp [hcf])]
        exact ⟨⟨_, rfl⟩, rfl, rfl⟩
      · split
        · rw [if_neg (by simp [hff])]
          exact ⟨⟨_, rfl⟩, rfl, rfl⟩
        · exact ⟨⟨_, rfl⟩, rfl, rfl⟩
    · exact ⟨⟨_, rfl⟩, rfl, rfl⟩

theorem c3_context_failure_amended_witness :
    (∃ px, (getCanvasDataURL envB 2 1).result
        = some (ExportImage.raw (targetDim envB.clientWidth 2)
            (targetDim envB.clientHeight 2) px)) ∧
    (getCanvasDataURL envB 2 1).canvasWidth = envB.canvasWidth ∧
    (getCanvasDataURL envB 2 1).canvasHeight = envB.canvasHeight :=
  (c3_context_failure_amended envB 2 1 rfl rfl rfl).2 rfl (Or.inl rfl)

/-- C4: if the WebGL context, the shader program, or the canvas element
is not initialised, the invocation returns null without mutating any
state: canvas dimensions unchanged, no render issued, no canvas
allocated, no draw or filter applied. -/
theorem c4_uninitialized_returns_null (env : ShaderEnv) (s b : ℚ)
    (h : env.glOk = false ∨ env.programOk = false ∨ env.canvasOk = false) :
    (getCanvasDataURL env s b).result = none ∧
    (getCanvasDataURL env s b).canvasWidth = env.canvasWidth ∧
    (getCanvasDataURL env s b).canvasHeight = env.canvasHeight ∧
    (getCanvasDataURL env s b).trace = emptyTrace := by
  have hcond : (!(env.glOk && env.programOk && env.canvasOk)) = true := by
    rcases h with h | h | h <;> simp [h]
  unfold getCanvasDataURL
  rw [if_pos hcond]
  exact ⟨rfl, rfl, rfl, rfl⟩

theorem c4_uninitialized_returns_null_witness :
    (getCanvasDataURL envC 2 0).result = none ∧
    (getCanvasDataURL envC 2 0).canvasWidth = envC.canvasWidth ∧
    (getCanvasDataURL envC 2 0).canvasHeight = envC.canvasHeight ∧
    (getCanvasDataURL envC 2 0).trace = emptyTrace :=
  c4_uninitialized_returns_null envC 2 0 (Or.inl rfl)

/-- C5: with `blurRadius = 0` the returned image is the PNG of exactly
the raw readback pixels after the vertical flip — no blur filter is set
and no padded clamp canvas is allocated or drawn into. -/
theorem c5_zero_blur_raw_flip (env : ShaderEnv) (s : ℚ)
    (hg : env.glOk = true) (hp : env.programOk = true) (hc : env.canvasOk = true)
    (ht : env.tempCtxOk = true)
    (hlen : (env.readPixels (targetDim env.clientWidth s)
        (targetDim env.clientHeight s)).length
      = targetDim env.clientWidth s * targetDim env.clientHeight s * 4) :
    (getCanvasDataURL env s 0).result
      = some (ExportImage.raw (targetDim env.clientWidth s)
          (targetDim env.clientHeight s)
          (flipPixels (targetDim env.clientWidth s) (targetDim env.clientHeight s)
            (env.readPixels (targetDim env.clientWidth s)
              (targetDim env.clientHeight s)))) ∧
    (getCanvasDataURL env s 0).trace.blurApplied = none ∧
    (getCanvasDataURL env s 0).trace.clampAlloc = none ∧
    (getCanvasDataURL env s 0).trace.clampOps = [] := by
  unfold getCanvasDataURL
  rw [if_neg (by simp [hg, hp, hc]), if_neg (by simp [ht]),
    if_neg (by norm_num : ¬((0 : ℚ) > 0))]
  rw [fitLen_of_length_eq hlen]
  exact ⟨rfl, rfl, rfl, rfl⟩

theorem c5_zero_blur_raw_flip_witness :
    (getCanvasDataURL envA 2 0).result
      = some (ExportImage.raw (targetDim envA.clientWidth 2)
          (targetDim envA.clientHeight 2)
          (flipPixels (targetDim envA.clientWidth 2) (targetDim envA.clientHeight 2)
            (envA.readPixels (targetDim envA.clientWidth 2)
              (targetDim envA.clientHeight 2)))) ∧
    (getCanvasDataURL envA 2 0).trace.blurApplied = none ∧
    (getCanvasDataURL envA 2 0).trace.clampAlloc = none ∧
    (getCanvasDataURL envA 2 0).trace.clampOps = [] :=
  c5_zero_blur_raw_flip envA 2 rfl rfl rfl rfl (by simp [envA])

/-- C6: the vertical flip writes source row `i` to destination row
`targetHeight - i - 1` (full `targetWidth * 4`-byte scanline copied
unchanged), so output row `i` equals readback row `h - 1 - i`. -/
theorem c6_flip_row_mapping (w h : Nat) (px : List Nat) (hlen : px.length = w * h * 4)
    (i : Nat) (hi : i < h) :
    pixelRow w (flipPixels w h px) (h - i - 1) = pixelRow w px i ∧
    pixelRow w (flipPixels w h px) i = pixelRow w px (h - 1 - i) := by
  constructor
  · rw [flipPixels_row w h px hlen (h - i - 1) (by omega)]
    congr 1
    omega
  · exact flipPixels_row w h px hlen i hi

theorem c6_flip_row_mapping_witness :
    pixelRow 1 (flipPixels 1 2 [0, 1, 2, 3, 4, 5, 6, 7]) (2 - 0 - 1)
      = pixelRow 1 [0, 1, 2, 3, 4, 5, 6, 7] 0 ∧
    pixelRow 1 (flipPixels 1 2 [0, 1, 2, 3, 4, 5, 6, 7]) 0
      = pixelRow 1 [0, 1, 2, 3, 4, 5, 6, 7] (2 - 1 - 0) :=
  c6_flip_row_mapping 1 2 [0, 1, 2, 3, 4, 5, 6, 7] rfl 0 (by norm_num)

/-- C7: whenever `blurRadiusPixels > 0`, the padding margin is
`ceil(blurRadiusPixels * scaleFactor * 3)` and the padded clamp canvas
is allocated with dimensions
`(targetWidth + 2*pad) × (targetHeight + 2*pad)`. -/
theorem c7_padding_formula (env : ShaderEnv) (s b : ℚ)
    (hg : env.glOk = true) (hp : env.programOk = true) (hc : env.canvasOk = true)
    (ht : env.tempCtxOk = true) (hb : 0 < b) :
    (getCanvasDataURL env s b).trace.clampAlloc
      = some ((⌈b * s * 3⌉).toNat,
          targetDim env.clientWidth s + 2 * (⌈b * s * 3⌉).toNat,
          targetDim env.clientHeight s + 2 * (⌈b * s * 3⌉).toNat) := by
  unfold getCanvasDataURL
  rw [if_neg (by simp [hg, hp, hc]), if_neg (by simp [ht]), if_pos hb]
  split
  · split
    · simp [Nat.mul_comm]
    · simp [Nat.mul_comm]
  · simp [Nat.mul_comm]

theorem c7_padding_formula_witness :
    (getCanvasDataURL envA 2 40).trace.clampAlloc
      = some ((⌈(40 : ℚ) * 2 * 3⌉).toNat,
          targetDim envA.clientWidth 2 + 2 * (⌈(40 : ℚ) * 2 * 3⌉).toNat,
          targetDim envA.clientHeight 2 + 2 * (⌈(40 : ℚ) * 2 * 3⌉).toNat) :=
  c7_padding_formula envA 2 40 rfl rfl rfl rfl (by norm_num)

/-- C8: in the blur path with the clamp context available, image
smoothing is disabled on the clamp context and the padded buffer is
assembled by exactly these `drawImage` calls, in order: the capture
copied to offset `(pad, pad)`; the four 1-pixel-wide edge strips
stretched to `pad × targetHeight` (left/right) and `targetWidth × pad`
(top/bottom); and the four 1×1 corner pixels stretched to `pad × pad`
corner squares. -/
theorem c8_clamp_assembly (env : ShaderEnv) (s b : ℚ)
    (hg : env.glOk = true) (hp : env.programOk = true) (hc : env.canvasOk = true)
    (ht : env.tempCtxOk = true) (hcl : env.clampCtxOk = true) (hb : 0 < b) :
    (getCanvasDataURL env s b).trace.clampSmoothing = some false ∧
    (getCanvasDataURL env s b).trace.clampOps
      = (let tw : Int := targetDim env.clientWidth s
         let th : Int := targetDim env.clientHeight s
         let p : Int := (⌈b * s * 3⌉).toNat
         [ ⟨0, 0, tw, th, p, p, tw, th⟩,
           ⟨0, 0, 1, th, 0, p, p, th⟩,
           ⟨tw - 1, 0, 1, th, tw + p, p, p, th⟩,
           ⟨0, 0, tw, 1, p, 0, tw, p⟩,
           ⟨0, th - 1, tw, 1, p, th + p, tw, p⟩,
           ⟨0, 0, 1, 1, 0, 0, p, p⟩,
           ⟨tw - 1, 0, 1, 1, tw + p, 0, p, p⟩,
           ⟨0, th - 1, 1, 1, 0, th + p, p, p⟩,
           ⟨tw - 1, th - 1, 1, 1, tw + p, th + p, p, p⟩ ]) := by
  unfold getCanvasDataURL
  rw [if_neg (by simp [hg, hp, hc]), if_neg (by simp [ht]), if_pos hb,
    if_pos (by simp [hcl])]
  split
  · exact ⟨rfl, rfl⟩
  · exact ⟨rfl, rfl⟩

theorem c8_clamp_assembly_witness :
    (getCanvasDataURL envA 2 1).trace.clampSmoothing = some false ∧
    (getCanvasDataURL envA 2 1).trace.clampOps
      = (let tw : Int := targetDim envA.clientWidth 2
         let th : Int := targetDim envA.clientHeight 2
         let p : Int := (⌈(1 : ℚ) * 2 * 3⌉).toNat
         [ ⟨0, 0, tw, th, p, p, tw, th⟩,
           ⟨0, 0, 1, th, 0, p, p, th⟩,
           ⟨tw - 1, 0, 1, th, tw + p, p, p, th⟩,
           ⟨0, 0, tw, 1, p, 0, tw, p⟩,
           ⟨0, th - 1, tw, 1, p, th + p, tw, p⟩,
           ⟨0, 0, 1, 1, 0, 0, p, p⟩,
           ⟨tw - 1, 0, 1, 1, tw + p, 0, p, p⟩,
           ⟨0, th - 1, 1, 1, 0, th + p, p, p⟩,
           ⟨tw - 1, th - 1, 1, 1, tw + p, th + p, p, p⟩ ]) :=
  c8_clamp_assembly envA 2 1 rfl rfl rfl rfl rfl (by norm_num)

/-- C9: the row flip is an involution — applying the flip loop twice to
any `w*h*4`-byte buffer yields the original buffer. -/
theorem c9_flip_involution (w h : Nat) (px : List Nat) (hlen : px.length = w * h * 4) :
    flipPixels w h (flipPixels w h px) = px := by
  have hF : (flipPixels w h px).length = w * h * 4 := flipPixels_length w h px hlen
  apply eq_of_pixelRows w h _ px (flipPixels_length w h _ hF) hlen
  intro i hi
  rw [flipPixels_row w h _ hF i hi, flipPixels_row w h px hlen (h - 1 - i) (by omega)]
  congr 1
  omega

theorem c9_flip_involution_witness :
    flipPixels 1 2 (flipPixels 1 2 [0, 1, 2, 3, 4, 5, 6, 7]) = [0, 1, 2, 3, 4, 5, 6, 7] :=
  c9_flip_involution 1 2 [0, 1, 2, 3, 4, 5, 6, 7] rfl

/-- C10: `generateCreativeContent` never rejects — it is a total
function into `GeneratedContent`, resolving with the fallback on every
failure mode — and every resolved value, success or fallback, has
exactly 5 colors and non-empty title and subtitle. -/
theorem c10_generator_total_wellformed (env : ApiEnv) (mood : String) (lang : Lang) :
    (generateCreativeContent env mood lang).colors.length = 5 ∧
    (generateCreativeContent env mood lang).title ≠ "" ∧
    (generateCreativeContent env mood lang).subtitle ≠ "" := by
  unfold generateCreativeContent
  rcases hE : generateCreativeContentE env mood lang with e | c
  · exact fallbackContent_wellFormed lang
  · exact generateCreativeContentE_ok_shape env mood lang c hE

end FluxCover
